import Mathlib

/-!
Shallow embedding of the connection-event handling core of the whatsmeow
client (`connectionevents.go` and the client/dispatch part of the package).

Go channels, goroutines and atomics are modelled by explicit state records
and effect lists: each handler is embedded as a pure function from its
inputs (the decoded node, the relevant client state) to a record of the
observable effects it performs (flags written, events dispatched, store
deletions, reconnect attempts started).
-/

namespace Whatsmeow

/-- Binary protocol node: tag, attribute map and child list, as in
`waBinary.Node`.  Only string-valued attributes are relevant to the
handlers modelled here, so the attribute map is an association list of
strings; a non-string attribute behaves like an absent one under the
type-asserted lookups the handlers use. -/
inductive Node where
  | mk (tag : String) (attrs : List (String × String)) (children : List Node)

def Node.tag : Node → String
  | .mk t _ _ => t

def Node.attrs : Node → List (String × String)
  | .mk _ a _ => a

def Node.children : Node → List Node
  | .mk _ _ c => c

/-- Models `node.Attrs[key].(string)` with the `ok` result discarded, and
equally `AttrGetter().OptionalString(key)` / `AttrGetter().String(key)`:
a missing (or non-string) attribute yields the empty string. -/
def Node.attrString (n : Node) (key : String) : String :=
  match n.attrs.find? (fun p => p.1 == key) with
  | some p => p.2
  | none => ""

/-- Models `node.GetOptionalChildByTag(tag)`: the first child with the
given tag, if any. -/
def Node.getOptionalChildByTag (n : Node) (tag : String) : Option Node :=
  n.children.find? (fun c => c.tag == tag)

/-- Events dispatched by the handlers in this file, from `types/events`. -/
inductive Event where
  | loggedOut (onConnect : Bool)
  | streamReplaced
  | streamError (code : String) (raw : Node)
  | connectFailure (reason : String) (raw : Node)
  | qrScannedWithoutMultidevice
  | disconnected
  | connected

/-- Observable effects of one `handleStreamError` call. -/
structure StreamErrorResult where
  /-- `atomic.StoreUint32(&cli.isLoggedIn, 0)`, performed unconditionally. -/
  isLoggedInCleared : Bool
  /-- whether `cli.expectDisconnect()` was called. -/
  expectDisconnect : Bool
  /-- events passed to `cli.dispatchEvent`, in order. -/
  events : List Event
  /-- number of `cli.Store.Delete()` calls. -/
  storeDeleteCalls : Nat
  /-- whether the detached `Disconnect(); Connect()` cycle was started. -/
  reconnectStarted : Bool

/-- Conflict type read by `handleStreamError`:
`conflict, _ := node.GetOptionalChildByTag("conflict")` followed by
`conflict.AttrGetter().OptionalString("type")`; a missing conflict child
is the zero `Node`, whose optional attribute reads as `""`. -/
def conflictTypeOf (node : Node) : String :=
  match node.getOptionalChildByTag "conflict" with
  | some conflict => conflict.attrString "type"
  | none => ""

/-- Embedding of `Client.handleStreamError`.  The `switch` is evaluated
top to bottom: `code == "515"` first, then `code == "401"` with conflict
type `device_removed`, then conflict type `replaced`, then `code == "503"`,
then the default branch dispatching a generic `StreamError`. -/
def handleStreamError (node : Node) : StreamErrorResult :=
  let code := node.attrString "code"
  let conflictType := conflictTypeOf node
  if code == "515" then
    ⟨true, false, [], 0, true⟩
  else if code == "401" && conflictType == "device_removed" then
    ⟨true, true, [.loggedOut false], 1, false⟩
  else if conflictType == "replaced" then
    ⟨true, true, [.streamReplaced], 0, false⟩
  else if code == "503" then
    ⟨true, false, [], 0, false⟩
  else
    ⟨true, false, [.streamError code node], 0, false⟩

/-- Embedding of `Client.handleIB`: dispatches a
`QRScannedWithoutMultidevice` event when the node has exactly one child
and its tag is `downgrade_webclient`, and does nothing otherwise. -/
def handleIB (node : Node) : List Event :=
  match node.children with
  | [child] =>
    if child.tag == "downgrade_webclient" then
      [.qrScannedWithoutMultidevice]
    else
      []
  | _ => []

/-- Outcome of invoking one registered event handler: it either returns
normally or panics with a message. -/
inductive HandlerOutcome where
  | ok
  | panicked (msg : String)

/-- Observable effects of one `dispatchEvent` call. -/
structure DispatchResult where
  /-- number of registered handlers that were actually invoked. -/
  invokedCount : Nat
  /-- whether the deferred `recover()` returned non-nil and the panic was
  logged with the event type and a stack trace. -/
  panicLogged : Bool
  /-- whether a panic escaped `dispatchEvent` and killed the calling task.
  The deferred `recover()` always intercepts the unwinding, so this is
  always `false`. -/
  taskCrashed : Bool

/-- Runs the `for _, handler := range cli.eventHandlers` loop: handlers are
invoked in order until one panics; a panic unwinds the loop immediately,
so no later handler is invoked.  Returns the number of handlers invoked
and the propagating panic value, if any. -/
def runEventHandlers (handlers : List (Event → HandlerOutcome)) (evt : Event) :
    Nat × Option String :=
  match handlers with
  | [] => (0, none)
  | h :: rest =>
    match h evt with
    | .ok =>
      let r := runEventHandlers rest evt
      (r.1 + 1, r.2)
    | .panicked msg => (1, some msg)

/-- Embedding of `Client.dispatchEvent`: the handler loop runs under a
single function-level `defer` whose `recover()` catches any panic after
the loop has already been abandoned, logging it with the event type and
`debug.Stack()`. -/
def dispatchEvent (handlers : List (Event → HandlerOutcome)) (evt : Event) :
    DispatchResult :=
  let r := runEventHandlers handlers evt
  ⟨r.1, r.2.isSome, false⟩

/-- Client connection state relevant to the state-machine claims.  The
`uint32` atomics hold 0 or 1 and are kept as `Nat`. -/
structure ClientState where
  /-- `cli.socket`: the active `NoiseSocket` handle id, `none` for nil. -/
  socket : Option Nat
  /-- `cli.expectedDisconnectVal` (uint32, 0 or 1). -/
  expectedDisconnectVal : Nat
  /-- `cli.isLoggedIn` (uint32, 0 or 1). -/
  isLoggedIn : Nat
  /-- keys of `cli.responseWaiters`. -/
  responseWaiters : List String
  /-- `cli.EnableAutoReconnect`. -/
  enableAutoReconnect : Bool
  /-- `cli.Store.ID`: `none` when no session is stored. -/
  storeID : Option Nat
  /-- `cli.AutoReconnectErrors`. -/
  autoReconnectErrors : Nat
  deriving DecidableEq

/-- Calls made on a socket handle during teardown. -/
inductive SocketOp where
  | stop (handle : Nat) (disconnect : Bool)
  deriving DecidableEq

/-- Embedding of `cli.expectDisconnect()`. -/
def ClientState.expectDisconnect (s : ClientState) : ClientState :=
  { s with expectedDisconnectVal := 1 }

/-- Embedding of `cli.resetExpectedDisconnect()`. -/
def ClientState.resetExpectedDisconnect (s : ClientState) : ClientState :=
  { s with expectedDisconnectVal := 0 }

/-- Embedding of `cli.isExpectedDisconnect()`. -/
def ClientState.isExpectedDisconnect (s : ClientState) : Bool :=
  s.expectedDisconnectVal == 1

/-- Embedding of `cli.unlockedDisconnect()`: if a socket is stored, call
`Stop(true)` on it and clear the handle. -/
def unlockedDisconnect (s : ClientState) : ClientState × List SocketOp :=
  match s.socket with
  | some ns => ({ s with socket := none }, [.stop ns true])
  | none => (s, [])

/-- Embedding of `Client.Disconnect`: returns immediately when no socket
handle is stored, otherwise runs `unlockedDisconnect` under the lock. -/
def Disconnect (s : ClientState) : ClientState × List SocketOp :=
  match s.socket with
  | none => (s, [])
  | some _ => unlockedDisconnect s

/-- Observable effects of one `onDisconnect` callback invocation. -/
structure OnDisconnectResult where
  state : ClientState
  /-- events passed to `cli.dispatchEvent`. -/
  events : List Event
  /-- whether `cli.autoReconnect()` was started. -/
  autoReconnectStarted : Bool
  /-- whether the pending response waiters were cancelled. -/
  waitersCleared : Bool
  /-- socket calls performed (`ns.Stop(false)` happens unconditionally). -/
  socketOps : List SocketOp

/-- Embedding of `Client.onDisconnect`: stops the reporting socket, then
acts on the client state only when the reported handle is still the
stored one; in that case it clears the handle and the response waiters,
and emits `Disconnected` plus starts auto-reconnect exactly when the
closure was remote and not expected. -/
def onDisconnect (s : ClientState) (ns : Nat) (remote : Bool) : OnDisconnectResult :=
  let ops := [SocketOp.stop ns false]
  if s.socket == some ns then
    let cleared := { s with socket := none, responseWaiters := ([] : List String) }
    if !s.isExpectedDisconnect && remote then
      ⟨cleared, [.disconnected], true, true, ops⟩
    else
      ⟨cleared, [], false, true, ops⟩
  else
    ⟨s, [], false, false, ops⟩

/-- Outcome of one `cli.Connect()` call inside the auto-reconnect loop. -/
inductive ConnectOutcome where
  | success
  | alreadyConnected
  | failed
  deriving DecidableEq

/-- One iteration of the auto-reconnect loop: the counter value after the
increment and the seconds slept before the `Connect()` attempt
(`time.Duration(cli.AutoReconnectErrors) * 2 * time.Second`). -/
structure ReconnectAttempt where
  counterValue : Nat
  sleptSeconds : Nat
  deriving DecidableEq

/-- Embedding of the `for` loop of `Client.autoReconnect`, driven by the
successive outcomes of `cli.Connect()`.  Returns the attempts performed,
the final counter, and whether the loop returned within the supplied
outcomes (`false` means it is still retrying). -/
def autoReconnectLoop (counter : Nat) :
    List ConnectOutcome → List ReconnectAttempt × Nat × Bool
  | [] => ([], counter, false)
  | outcome :: rest =>
    let c := counter + 1
    let attempt : ReconnectAttempt := ⟨c, c * 2⟩
    match outcome with
    | .alreadyConnected => ([attempt], c, true)
    | .success => ([attempt], c, true)
    | .failed =>
      let r := autoReconnectLoop c rest
      (attempt :: r.1, r.2.1, r.2.2)

/-- Embedding of `Client.autoReconnect`: returns immediately when
auto-reconnect is disabled or no session is stored, otherwise runs the
retry loop. -/
def autoReconnect (s : ClientState) (outcomes : List ConnectOutcome) :
    List ReconnectAttempt × Nat × Bool :=
  if !s.enableAutoReconnect || s.storeID == none then
    ([], s.autoReconnectErrors, true)
  else
    autoReconnectLoop s.autoReconnectErrors outcomes

/-- Expected attempt trace of `k` consecutive failing iterations starting
from counter value `c`: each iteration increments the counter and sleeps
`counter * 2` seconds. -/
def attemptsFrom (c : Nat) : Nat → List ReconnectAttempt
  | 0 => []
  | k + 1 => ⟨c + 1, (c + 1) * 2⟩ :: attemptsFrom (c + 1) k

/-- Embedding of the synchronous part of `Client.handleConnectSuccess`:
records authentication, resets the auto-reconnect failure counter and
sets the logged-in flag; the detached task finishes by dispatching a
`Connected` event (the prekey reconciliation and passive IQ it also
performs are external IO and not modelled). -/
def handleConnectSuccess (s : ClientState) : ClientState × List Event :=
  ({ s with autoReconnectErrors := 0, isLoggedIn := 1 }, [.connected])

/-- Observable effects of one `handleConnectFailure` call. -/
structure ConnectFailureResult where
  /-- whether `cli.expectDisconnect()` was called. -/
  expectDisconnect : Bool
  /-- events passed to `cli.dispatchEvent`, in order. -/
  events : List Event
  /-- number of `cli.Store.Delete()` calls. -/
  storeDeleteCalls : Nat

/-- Embedding of `Client.handleConnectFailure`: both branches call
`expectDisconnect`; reason `401` dispatches `LoggedOut{OnConnect: true}`
and deletes the store, every other reason dispatches a generic
`ConnectFailure{Reason, Raw}`. -/
def handleConnectFailure (node : Node) : ConnectFailureResult :=
  let reason := node.attrString "reason"
  if reason == "401" then
    ⟨true, [.loggedOut true], 1⟩
  else
    ⟨true, [.connectFailure reason node], 0⟩

/-- Size of the buffered handler queue channel (`handlerQueueSize`). -/
def handlerQueueSize : Nat := 2048

/-- Tags with a registered node handler, from the `cli.nodeHandlers` map
built in `NewClient`. -/
def nodeHandlerTags : List String :=
  ["message", "receipt", "call", "chatstate", "presence", "notification",
   "success", "failure", "stream:error", "iq", "ib"]

/-- Delivery decision `handleFrame` makes for one decoded node. -/
structure HandleFrameResult where
  /-- node was sent into `cli.handlerQueue` by the non-blocking `select`. -/
  queuedDirect : Bool
  /-- node was handed to a detached task that blocks until it can enqueue. -/
  queuedOutOfBand : Bool
  /-- the queue-full warning about lost ordering was logged. -/
  orderingWarned : Bool
  /-- node was discarded with no delivery path at all. -/
  dropped : Bool
  deriving DecidableEq

/-- Embedding of the routing part of `Client.handleFrame`, after a frame
has been decompressed and unmarshalled into `node`: stream-end frames are
only logged, a node consumed by `receiveResponse` is done, a node whose
tag has a registered handler is enqueued (non-blocking when the buffered
channel has space, otherwise out of band with an ordering warning), and
any other node is dropped with a debug log.  The `select` send on the
buffered channel takes its `case` exactly when the buffer is not full. -/
def handleFrameRoute (registeredTags : List String) (handledAsResponse : Bool)
    (queueLen queueCap : Nat) (node : Node) : HandleFrameResult :=
  if node.tag == "xmlstreamend" then
    ⟨false, false, false, false⟩
  else if handledAsResponse then
    ⟨false, false, false, false⟩
  else if registeredTags.contains node.tag then
    if queueLen < queueCap then
      ⟨true, false, false, false⟩
    else
      ⟨false, true, true, false⟩
  else
    ⟨false, false, false, true⟩

/-- Registration entry of the event-handler list: the callback slot is
nil-able in Go (it is nilled out on removal to release the closure), so
it is modelled as an `Option` over an abstract callback token. -/
structure WrappedEventHandler where
  fn : Option Nat
  id : Nat
  deriving DecidableEq

/-- Result of the `copy(hs[index:], hs[index+1:])` slice shift performed
by `RemoveEventHandler` for a middle index: elements after `index` move
one slot left and the final slot keeps the original last element. -/
def sliceShiftLeft (hs : List WrappedEventHandler) (index : Nat) :
    List WrappedEventHandler :=
  hs.take index ++ hs.drop (index + 1) ++ hs.drop (hs.length - 1)

/-- Embedding of `Client.RemoveEventHandler`: scans for the first entry
with the given id; at index 0 the head is nilled and sliced off, at a
middle index the tail is shifted left with `copy` before the last slot is
nilled and truncated, and at the last index only the truncation happens.
Nilling the `fn` of a slot that the resulting slice no longer contains
does not change the resulting list, so the result is stated on the
surviving entries. -/
def removeEventHandler (hs : List WrappedEventHandler) (id : Nat) :
    Bool × List WrappedEventHandler :=
  match hs.findIdx? (fun h => h.id == id) with
  | none => (false, hs)
  | some 0 => (true, hs.drop 1)
  | some index =>
    let shifted :=
      if index < hs.length - 1 then sliceShiftLeft hs index else hs
    (true, shifted.take (hs.length - 1))

/-! Theorems about the failure classifier. -/

/-- Stream-error node carrying both code `515` and a nested conflict of
type `replaced`. -/
def streamErrorNode515Replaced : Node :=
  .mk "stream:error" [("code", "515")]
    [.mk "conflict" [("type", "replaced")] []]

/-- Claim C1 (counterexample): on a stream-error node with code `515` and
nested conflict type `replaced`, the `code == "515"` case of the switch
runs first, so the disconnect is not marked expected and no
`StreamReplaced` event is emitted — the `replaced` rule does not take
precedence over the code-`515` rule. -/
theorem handleStreamError_replaced_not_over_515 :
    ¬ ((handleStreamError streamErrorNode515Replaced).expectDisconnect = true ∧
       (handleStreamError streamErrorNode515Replaced).events = [Event.streamReplaced]) := by
  intro h
  have hfalse : (handleStreamError streamErrorNode515Replaced).expectDisconnect = false := rfl
  rw [hfalse] at h
  exact Bool.false_ne_true h.1

/-- Claim C1 (amended): for every stream-error node whose nested conflict
child has type `replaced` and whose code attribute is not `515`, the
handler marks the disconnect as expected and emits exactly a
`StreamReplaced` event (taking precedence over the code-`401` and
code-`503` rules and the default rule). -/
theorem handleStreamError_replaced (node : Node)
    (hconf : conflictTypeOf node = "replaced")
    (hcode : node.attrString "code" ≠ "515") :
    handleStreamError node = ⟨true, true, [.streamReplaced], 0, false⟩ := by
  have h515 : (node.attrString "code" == "515") = false :=
    beq_eq_false_iff_ne.mpr hcode
  simp [handleStreamError, hconf, h515]

/-- Claim C1 (witness): code `401` with conflict type `replaced` lands in
the `replaced` rule. -/
theorem handleStreamError_replaced_witness :
    handleStreamError
      (.mk "stream:error" [("code", "401")]
        [.mk "conflict" [("type", "replaced")] []]) =
      ⟨true, true, [.streamReplaced], 0, false⟩ :=
  handleStreamError_replaced _ rfl (by decide)

/-- Claim C4: for every stream-error node with code `401` and nested
conflict type `device_removed`, the handler's effects are exactly:
expected-disconnect flag set, `LoggedOut{OnConnect: false}` dispatched
(and nothing else), `Store.Delete()` invoked once, no reconnect cycle
started (the unconditional clearing of the logged-in flag applies to
every stream error). -/
theorem handleStreamError_deviceRemoved (node : Node)
    (hcode : node.attrString "code" = "401")
    (hconf : conflictTypeOf node = "device_removed") :
    handleStreamError node = ⟨true, true, [.loggedOut false], 1, false⟩ := by
  simp [handleStreamError, hconf, hcode]

/-- Claim C4 (witness): concrete device-removed stream error. -/
theorem handleStreamError_deviceRemoved_witness :
    handleStreamError
      (.mk "stream:error" [("code", "401")]
        [.mk "conflict" [("type", "device_removed")] []]) =
      ⟨true, true, [.loggedOut false], 1, false⟩ :=
  handleStreamError_deviceRemoved _ rfl rfl

/-- Claim C5: `handleConnectFailure` marks the disconnect as expected for
every connect-failure node; with reason `401` it dispatches
`LoggedOut{OnConnect: true}` and deletes the store once, with any other
reason it dispatches `ConnectFailure{Reason, Raw}` and does not delete
the store. -/
theorem handleConnectFailure_spec (node : Node) :
    (handleConnectFailure node).expectDisconnect = true ∧
    (node.attrString "reason" = "401" →
      handleConnectFailure node = ⟨true, [.loggedOut true], 1⟩) ∧
    (node.attrString "reason" ≠ "401" →
      handleConnectFailure node =
        ⟨true, [.connectFailure (node.attrString "reason") node], 0⟩) := by
  refine ⟨?_, ?_, ?_⟩
  · unfold handleConnectFailure
    by_cases h : node.attrString "reason" = "401" <;> simp [h]
  · intro h
    simp [handleConnectFailure, h]
  · intro h
    have hne : (node.attrString "reason" == "401") = false :=
      beq_eq_false_iff_ne.mpr h
    simp [handleConnectFailure, hne]

/-- Claim C5 (witness): the reason-`401` branch at a concrete node. -/
theorem handleConnectFailure_witness :
    handleConnectFailure (.mk "failure" [("reason", "401")] []) =
      ⟨true, [.loggedOut true], 1⟩ :=
  (handleConnectFailure_spec _).2.1 rfl

/-- Claim C10: `handleIB` dispatches `QRScannedWithoutMultidevice` exactly
when the ib node has a single child tagged `downgrade_webclient`, and
dispatches nothing for every other ib node. -/
theorem handleIB_spec (node : Node) :
    (handleIB node = [Event.qrScannedWithoutMultidevice] ↔
      ∃ child, node.children = [child] ∧ child.tag = "downgrade_webclient") ∧
    ((¬ ∃ child, node.children = [child] ∧ child.tag = "downgrade_webclient") →
      handleIB node = []) := by
  constructor
  · constructor
    · intro h
      unfold handleIB at h
      match hc : node.children with
      | [child] =>
        rw [hc] at h
        by_cases ht : child.tag = "downgrade_webclient"
        · exact ⟨child, rfl, ht⟩
        · simp [ht] at h
      | [] => rw [hc] at h; simp at h
      | c₁ :: c₂ :: rest => rw [hc] at h; simp at h
    · rintro ⟨child, hc, ht⟩
      unfold handleIB
      rw [hc]
      simp [ht]
  · intro hnot
    unfold handleIB
    match hc : node.children with
    | [child] =>
      have ht : child.tag ≠ "downgrade_webclient" := fun ht => hnot ⟨child, hc, ht⟩
      simp [ht]
    | [] => rfl
    | c₁ :: c₂ :: rest => rfl

/-- Claim C10 (witness): concrete ib node with a single
`downgrade_webclient` child. -/
theorem handleIB_witness :
    handleIB (.mk "ib" [] [.mk "downgrade_webclient" [] []]) =
      [Event.qrScannedWithoutMultidevice] :=
  (handleIB_spec _).1.mpr ⟨_, rfl, rfl⟩

/-! Theorems about event dispatch. -/

/-- Handler list whose first handler panics and whose second returns
normally. -/
def panickyThenOk : List (Event → HandlerOutcome) :=
  [fun _ => .panicked "boom", fun _ => .ok]

/-- Claim C2 (counterexample): with a panicking first handler and an ok
second handler, `dispatchEvent` invokes only the first handler — the
function-level `defer`/`recover` catches the panic only after the range
loop has been unwound, so the handler registered after the panicking one
is never invoked with the event. -/
theorem dispatchEvent_panic_skips_rest :
    (dispatchEvent panickyThenOk Event.connected).invokedCount = 1 ∧
    (dispatchEvent panickyThenOk Event.connected).invokedCount ≠
      panickyThenOk.length := by
  exact ⟨rfl, by decide⟩

/-- Helper for the panic-isolation theorem: the handler loop stops at the
first panicking handler, having invoked it and everything before it. -/
theorem runEventHandlers_panic (pre post : List (Event → HandlerOutcome))
    (h : Event → HandlerOutcome) (msg : String) (evt : Event)
    (hpre : ∀ g ∈ pre, g evt = .ok) (hh : h evt = .panicked msg) :
    runEventHandlers (pre ++ h :: post) evt = (pre.length + 1, some msg) := by
  induction pre with
  | nil => simp [runEventHandlers, hh]
  | cons g rest ih =>
    have hg : g evt = .ok := hpre g (List.mem_cons_self g rest)
    have hrest := ih (fun x hx => hpre x (List.mem_cons_of_mem g hx))
    simp [runEventHandlers, hg, hrest]

/-- Claim C2 (amended): when a handler panics during `dispatchEvent`, the
panic is caught by the deferred `recover` and logged with the event type
and a stack trace, and the dispatching task does not crash; however the
handlers registered after the panicking one are not invoked — dispatch
stops at the panicking handler. -/
theorem dispatchEvent_panic_isolation (pre post : List (Event → HandlerOutcome))
    (h : Event → HandlerOutcome) (msg : String) (evt : Event)
    (hpre : ∀ g ∈ pre, g evt = .ok) (hh : h evt = .panicked msg) :
    dispatchEvent (pre ++ h :: post) evt = ⟨pre.length + 1, true, false⟩ := by
  unfold dispatchEvent
  rw [runEventHandlers_panic pre post h msg evt hpre hh]
  rfl

/-- Claim C2 (witness): in an ok/panicking/ok handler list the first two
handlers run, the panic is logged, the task survives. -/
theorem dispatchEvent_panic_isolation_witness :
    dispatchEvent
      [fun _ => HandlerOutcome.ok, fun _ => HandlerOutcome.panicked "boom",
       fun _ => HandlerOutcome.ok] Event.connected = ⟨2, true, false⟩ :=
  dispatchEvent_panic_isolation [fun _ => .ok] [fun _ => .ok]
    (fun _ => .panicked "boom") "boom" .connected
    (by intro g hg; rw [List.mem_singleton] at hg; subst hg; rfl) rfl

/-! Theorems about the connection state machine. -/

/-- Concrete client state holding socket handle 1, with no expected
disconnect pending and a stored session. -/
def clientWithSocket : ClientState :=
  ⟨some 1, 0, 0, ["iq-1"], true, some 7, 0⟩

/-- Claim C3 (counterexample): `Disconnect` on a client with an active
socket does not set the expected-disconnect flag — it only stops the
socket (passing `true` to `Stop`) and clears the handle; the flag is
written exclusively by `expectDisconnect` in the stream-error and
connect-failure handlers. -/
theorem disconnect_does_not_set_expected :
    ¬ ((Disconnect clientWithSocket).1.expectedDisconnectVal = 1) := by
  decide

/-- Claim C3 (amended): `Disconnect()` is idempotent: with no stored
socket handle it is a no-op; otherwise it tears down the channel via
`Stop(true)` and clears the stored handle, so a second call is a no-op.
It does not itself modify the expected-disconnect flag. -/
theorem disconnect_spec (s : ClientState) :
    (s.socket = none → Disconnect s = (s, [])) ∧
    (∀ ns, s.socket = some ns →
      Disconnect s = ({ s with socket := none }, [.stop ns true])) ∧
    Disconnect (Disconnect s).1 = ((Disconnect s).1, []) ∧
    (Disconnect s).1.expectedDisconnectVal = s.expectedDisconnectVal := by
  cases hs : s.socket with
  | none => simp [Disconnect, unlockedDisconnect, hs]
  | some ns => simp [Disconnect, unlockedDisconnect, hs]

/-- Claim C3 (witness): concrete teardown of socket handle 1. -/
theorem disconnect_spec_witness :
    Disconnect clientWithSocket =
      ({ clientWithSocket with socket := none }, [SocketOp.stop 1 true]) :=
  (disconnect_spec clientWithSocket).2.1 1 rfl

/-- Claim C7: the channel-closure callback changes the client state only
when the reported socket handle is still the stored one; in that case a
remote, unexpected closure emits a `Disconnected` event and starts
auto-reconnect, while an expected or locally-initiated closure emits no
event and starts nothing. -/
theorem onDisconnect_spec (s : ClientState) (ns : Nat) (remote : Bool) :
    (s.socket ≠ some ns →
      (onDisconnect s ns remote).state = s ∧
      (onDisconnect s ns remote).events = [] ∧
      (onDisconnect s ns remote).autoReconnectStarted = false ∧
      (onDisconnect s ns remote).waitersCleared = false) ∧
    (s.socket = some ns → s.isExpectedDisconnect = false → remote = true →
      (onDisconnect s ns remote).events = [Event.disconnected] ∧
      (onDisconnect s ns remote).autoReconnectStarted = true) ∧
    (s.socket = some ns → (s.isExpectedDisconnect = true ∨ remote = false) →
      (onDisconnect s ns remote).events = [] ∧
      (onDisconnect s ns remote).autoReconnectStarted = false) := by
  refine ⟨?_, ?_, ?_⟩
  · intro h
    have hb : (s.socket == some ns) = false := beq_eq_false_iff_ne.mpr h
    simp [onDisconnect, hb]
  · intro h hexp hrem
    have hb : (s.socket == some ns) = true := beq_iff_eq.mpr h
    subst hrem
    simp [onDisconnect, hb, hexp]
  · intro h hcase
    have hb : (s.socket == some ns) = true := beq_iff_eq.mpr h
    rcases hcase with hexp | hrem
    · simp [onDisconnect, hb, hexp]
    · subst hrem
      simp [onDisconnect, hb]

/-- Claim C7 (witness): remote unexpected closure of the live handle
emits `Disconnected` and starts auto-reconnect. -/
theorem onDisconnect_spec_witness :
    (onDisconnect clientWithSocket 1 true).events = [Event.disconnected] ∧
    (onDisconnect clientWithSocket 1 true).autoReconnectStarted = true :=
  (onDisconnect_spec clientWithSocket 1 true).2.1 rfl rfl rfl

/-! Theorems about the auto-reconnect loop. -/

/-- Helper: every failing iteration increments the counter, records the
backoff sleep, and continues the loop. -/
theorem autoReconnectLoop_all_failed :
    ∀ (outcomes : List ConnectOutcome),
      (∀ x ∈ outcomes, x = ConnectOutcome.failed) →
    ∀ c, autoReconnectLoop c outcomes =
      (attemptsFrom c outcomes.length, c + outcomes.length, false) := by
  intro outcomes
  induction outcomes with
  | nil => intro _ c; simp [autoReconnectLoop, attemptsFrom]
  | cons o rest ih =>
    intro hfail c
    have ho : o = ConnectOutcome.failed := hfail o (List.mem_cons_self o rest)
    subst ho
    have hrest := ih (fun x hx => hfail x (List.mem_cons_of_mem _ hx)) (c + 1)
    have hstep : autoReconnectLoop c (ConnectOutcome.failed :: rest) =
        (⟨c + 1, (c + 1) * 2⟩ :: (autoReconnectLoop (c + 1) rest).1,
         (autoReconnectLoop (c + 1) rest).2.1,
         (autoReconnectLoop (c + 1) rest).2.2) := rfl
    rw [hstep, hrest]
    simp only [List.length_cons, Prod.mk.injEq]
    exact ⟨rfl, by omega, trivial⟩

/-- Helper: the loop returns on the first `Connect()` outcome that is a
success or an already-connected error, after a final increment-and-sleep
iteration. -/
theorem autoReconnectLoop_stops :
    ∀ (pre : List ConnectOutcome) (o : ConnectOutcome)
      (post : List ConnectOutcome),
      (∀ x ∈ pre, x = ConnectOutcome.failed) → o ≠ ConnectOutcome.failed →
    ∀ c, autoReconnectLoop c (pre ++ o :: post) =
      (attemptsFrom c (pre.length + 1), c + pre.length + 1, true) := by
  intro pre
  induction pre with
  | nil =>
    intro o post _ ho c
    cases o with
    | success => simp [autoReconnectLoop, attemptsFrom]
    | alreadyConnected => simp [autoReconnectLoop, attemptsFrom]
    | failed => exact absurd rfl ho
  | cons x rest ih =>
    intro o post hpre ho c
    have hx : x = ConnectOutcome.failed := hpre x (List.mem_cons_self x rest)
    subst hx
    have hrest := ih o post (fun y hy => hpre y (List.mem_cons_of_mem _ hy)) ho (c + 1)
    rw [List.cons_append]
    have hstep : autoReconnectLoop c (ConnectOutcome.failed :: (rest ++ o :: post)) =
        (⟨c + 1, (c + 1) * 2⟩ :: (autoReconnectLoop (c + 1) (rest ++ o :: post)).1,
         (autoReconnectLoop (c + 1) (rest ++ o :: post)).2.1,
         (autoReconnectLoop (c + 1) (rest ++ o :: post)).2.2) := rfl
    rw [hstep, hrest]
    simp only [List.length_cons, Prod.mk.injEq]
    exact ⟨rfl, by omega, trivial⟩

/-- Helper: each recorded attempt slept its counter value times the fixed
two-second unit. -/
theorem attemptsFrom_slept :
    ∀ (k c : Nat) (a : ReconnectAttempt), a ∈ attemptsFrom c k →
      a.sleptSeconds = a.counterValue * 2 := by
  intro k
  induction k with
  | zero => intro c a ha; simp [attemptsFrom] at ha
  | succ n ih =>
    intro c a ha
    rw [attemptsFrom] at ha
    rcases List.mem_cons.mp ha with h | h
    · subst h; rfl
    · exact ih (c + 1) a h

/-- Claim C6: `autoReconnect` returns immediately unless auto-reconnect
is enabled and a session is stored; otherwise each iteration increments
the failure counter and sleeps `counter * 2` seconds (linear backoff, no
cap) before `Connect()`; the loop runs one iteration per failure without
terminating while every outcome fails, and returns on the first success
or already-connected outcome; `handleConnectSuccess` resets the counter
to zero. -/
theorem autoReconnect_spec (s : ClientState)
    (outcomes pre post : List ConnectOutcome) (o : ConnectOutcome) :
    ((s.enableAutoReconnect = false ∨ s.storeID = none) →
      autoReconnect s outcomes = ([], s.autoReconnectErrors, true)) ∧
    (s.enableAutoReconnect = true → s.storeID ≠ none →
      ((∀ x ∈ outcomes, x = ConnectOutcome.failed) →
        autoReconnect s outcomes =
          (attemptsFrom s.autoReconnectErrors outcomes.length,
           s.autoReconnectErrors + outcomes.length, false)) ∧
      ((∀ x ∈ pre, x = ConnectOutcome.failed) → o ≠ ConnectOutcome.failed →
        autoReconnect s (pre ++ o :: post) =
          (attemptsFrom s.autoReconnectErrors (pre.length + 1),
           s.autoReconnectErrors + pre.length + 1, true))) ∧
    (∀ a ∈ attemptsFrom s.autoReconnectErrors outcomes.length,
      a.sleptSeconds = a.counterValue * 2) ∧
    (handleConnectSuccess s).1.autoReconnectErrors = 0 := by
  refine ⟨?_, ?_, ?_, rfl⟩
  · rintro (he | hid)
    · simp [autoReconnect, he]
    · simp [autoReconnect, hid]
  · intro he hid
    have hguard : (!s.enableAutoReconnect || s.storeID == none) = false := by
      rw [he, beq_eq_false_iff_ne.mpr hid]
      rfl
    constructor
    · intro hfail
      simp only [autoReconnect, hguard, Bool.false_eq_true, if_false]
      exact autoReconnectLoop_all_failed outcomes hfail s.autoReconnectErrors
    · intro hpre ho
      simp only [autoReconnect, hguard, Bool.false_eq_true, if_false]
      exact autoReconnectLoop_stops pre o post hpre ho s.autoReconnectErrors
  · exact attemptsFrom_slept outcomes.length s.autoReconnectErrors

/-- Claim C6 (witness): from counter 0, one failure then a success gives
two attempts with counters 1 and 2 and sleeps 2 and 4 seconds, and the
loop terminates. -/
theorem autoReconnect_spec_witness :
    autoReconnect clientWithSocket
      ([ConnectOutcome.failed] ++ ConnectOutcome.success :: []) =
      (attemptsFrom clientWithSocket.autoReconnectErrors
        ([ConnectOutcome.failed].length + 1),
       clientWithSocket.autoReconnectErrors + [ConnectOutcome.failed].length + 1,
       true) :=
  ((autoReconnect_spec clientWithSocket [] [ConnectOutcome.failed] []
      ConnectOutcome.success).2.1 rfl (by decide)).2
    (by intro x hx; rw [List.mem_singleton] at hx; exact hx) (by decide)

/-! Theorems about frame routing. -/

/-- Claim C8: a decoded node whose tag has a registered handler is never
dropped by `handleFrame`: with free space in the handler queue it is
enqueued directly in arrival order, and with a full queue it is delivered
out of band by a detached task while the lost-ordering warning is
logged. -/
theorem handleFrameRoute_spec (queueLen : Nat) (node : Node)
    (htag : nodeHandlerTags.contains node.tag = true) :
    (handleFrameRoute nodeHandlerTags false queueLen handlerQueueSize
      node).dropped = false ∧
    (queueLen < handlerQueueSize →
      handleFrameRoute nodeHandlerTags false queueLen handlerQueueSize node =
        ⟨true, false, false, false⟩) ∧
    (handlerQueueSize ≤ queueLen →
      handleFrameRoute nodeHandlerTags false queueLen handlerQueueSize node =
        ⟨false, true, true, false⟩) := by
  have hne : (node.tag == "xmlstreamend") = false := by
    apply beq_eq_false_iff_ne.mpr
    intro heq
    rw [heq] at htag
    exact absurd htag (by decide)
  have hmem : node.tag ∈ nodeHandlerTags := by simpa using htag
  refine ⟨?_, ?_, ?_⟩
  · by_cases hq : queueLen < handlerQueueSize <;>
      simp [handleFrameRoute, hne, htag, hmem, hq]
  · intro hq
    simp [handleFrameRoute, hne, htag, hmem, hq]
  · intro hq
    have hnlt : ¬ (queueLen < handlerQueueSize) := Nat.not_lt.mpr hq
    simp [handleFrameRoute, hne, htag, hmem, hnlt]

/-- Claim C8 (witness): a message node arriving at a full queue is routed
out of band with the ordering warning, not dropped. -/
theorem handleFrameRoute_spec_witness :
    handleFrameRoute nodeHandlerTags false handlerQueueSize handlerQueueSize
      (Node.mk "message" [] []) = ⟨false, true, true, false⟩ :=
  (handleFrameRoute_spec handlerQueueSize (Node.mk "message" [] [])
    (by decide)).2.2 (Nat.le_refl _)

/-! Theorems about event-handler removal. -/

/-- Helper: an index returned by `findIdx?` started at `s` is at least
`s` and within the list. -/
theorem findIdx?_some_bound {α : Type} (p : α → Bool) :
    ∀ (l : List α) (s j : Nat), List.findIdx? p l s = some j →
      s ≤ j ∧ j - s < l.length := by
  intro l
  induction l with
  | nil => intro s j h; simp [List.findIdx?] at h
  | cons x t ih =>
    intro s j h
    rw [List.findIdx?] at h
    by_cases hp : p x
    · rw [if_pos hp] at h
      cases h
      simp only [List.length_cons]
      omega
    · rw [if_neg hp] at h
      have := ih (s + 1) j h
      simp only [List.length_cons]
      omega

/-- Claim C9: `RemoveEventHandler` with an unregistered id returns false
and leaves the handler list unchanged; with a registered id it returns
true and removes exactly the first entry carrying that id — including at
index 0 — with every slice access in bounds, leaving the remaining
handlers in their relative order. -/
theorem removeEventHandler_spec (hs : List WrappedEventHandler) (id : Nat) :
    ((∀ h ∈ hs, h.id ≠ id) → removeEventHandler hs id = (false, hs)) ∧
    (∀ index, hs.findIdx? (fun h => h.id == id) = some index →
      removeEventHandler hs id =
        (true, hs.take index ++ hs.drop (index + 1))) := by
  constructor
  · intro hno
    have hnone : hs.findIdx? (fun h => h.id == id) = none :=
      List.findIdx?_eq_none_iff.mpr
        (fun x hx => beq_eq_false_iff_ne.mpr (hno x hx))
    simp [removeEventHandler, hnone]
  · intro index hidx
    have hbound := findIdx?_some_bound (fun h => h.id == id) hs 0 index hidx
    have hlen : index < hs.length := by omega
    cases index with
    | zero =>
      have hred : removeEventHandler hs id = (true, hs.drop 1) := by
        unfold removeEventHandler
        rw [hidx]
      rw [hred]
      simp
    | succ j =>
      have hred : removeEventHandler hs id =
          (true, (if j + 1 < hs.length - 1 then sliceShiftLeft hs (j + 1)
                  else hs).take (hs.length - 1)) := by
        unfold removeEventHandler
        rw [hidx]
        rfl
      rw [hred]
      by_cases hmid : j + 1 < hs.length - 1
      · rw [if_pos hmid]
        unfold sliceShiftLeft
        have hlen2 : (hs.take (j + 1) ++ hs.drop (j + 2)).length =
            hs.length - 1 := by
          simp only [List.length_append, List.length_take, List.length_drop]
          omega
        rw [List.take_left' hlen2]
      · rw [if_neg hmid]
        have hdrop : hs.drop (j + 2) = [] :=
          List.drop_eq_nil_of_le (by omega)
        have hj : hs.length - 1 = j + 1 := by omega
        rw [hdrop, List.append_nil, hj]

/-- Claim C9 (witness): removing the id found at the head of the backing
sequence keeps exactly the later entries. -/
theorem removeEventHandler_spec_witness :
    removeEventHandler [⟨some 10, 1⟩, ⟨some 20, 2⟩] 1 =
      (true, [(⟨some 20, 2⟩ : WrappedEventHandler)]) :=
  (removeEventHandler_spec [⟨some 10, 1⟩, ⟨some 20, 2⟩] 1).2 0 (by decide)

end Whatsmeow
